import Mathlib

/-!
Verification development for `src/benchmark_scripts/anyscale.py`, the driver
script of the llm-research benchmarking harness.  The script's per-query loop
(`run_queries_on_anyscale`), its orchestration loop (`multi_process`) and the
argument handling in `main` are embedded shallowly below: the HTTP client, the
SQL extractor (`sql_match` from `common_functions`), the prompt template and
the file system are parameters, and the per-query control flow — including the
`try`/`except` boundary and the possibility of an unbound local name — is made
explicit.
-/

namespace Anyscale

/-! ### Module-level constants (anyscale.py lines 28–52) -/

/-- Modelled from the spec: the environment tag `Environments.ANYSCALE` from
`common_constants`, which is not among the shown sources; only its use as an
opaque path/metadata component matters here. -/
def HOST_ENV : String := "anyscale"

def ANY_SCALE_BASE_URL : String := "https://api.endpoints.anyscale.com/v1"

def MODEL_META_LLAMA : String := "meta-llama/Llama-2-70b-chat-hf"

def MODEL_META_CODELLAMA_70B : String := "codellama/CodeLlama-70b-Instruct-hf"

def MODEL_META_CODELLAMA_34B : String := "codellama/CodeLlama-34b-Instruct-hf"

def MODEL_MISTRALAI_MISTRAL_7B : String := "mistralai/Mistral-7B-Instruct-v0.1"

def MODEL_MISTRALAI_MIXTRAL_8X7B : String := "mistralai/Mixtral-8x7B-Instruct-v0.1"

def MODEL_GPT_3 : String := "gpt-3.5-turbo-16k"

def MODEL_GPT_4 : String := "gpt-4-turbo-preview"

def supported_models : List (String × String) :=
  [("cl-70", MODEL_META_CODELLAMA_70B),
   ("cl-34", MODEL_META_CODELLAMA_34B),
   ("mistral", MODEL_MISTRALAI_MISTRAL_7B),
   ("mixtral", MODEL_MISTRALAI_MIXTRAL_8X7B),
   ("llama", MODEL_META_LLAMA),
   ("gpt-4", MODEL_GPT_4),
   ("gpt-3", MODEL_GPT_3)]

/-! ### Data model -/

/-- One element of `total_user_query`: the `(context, question, hardness)`
triple unpacked by the `for` loop at line 66. -/
structure Query where
  context : String
  question : String
  hardness : String
deriving Repr, DecidableEq

/-- One chat message `{"role": ..., "content": ...}`. -/
structure Message where
  role : String
  content : String
deriving Repr, DecidableEq

/-- The `usage` object of a chat-completion response. -/
structure Usage where
  prompt_tokens : Nat
  completion_tokens : Nat
deriving Repr, DecidableEq

/-- The parts of `anyscale_response` that the script reads:
`choices[0].message.content`, `usage`, and `str(anyscale_response)`. -/
structure Response where
  content : String
  usage : Usage
  raw : String
deriving Repr, DecidableEq

/-- Outcome of one `await client.chat.completions.create(...)` round trip,
including the wall-clock time the `datetime.now()` pair around the call
measures (as a microsecond count, the resolution of a Python `timedelta`).
`exn` covers every exception the `try` block can see at or after the call:
network errors, a malformed response (missing `choices`/`usage` fields raise
while extracting), etc. -/
inductive CallResult where
  | ok (resp : Response) (elapsedMicros : Nat)
  | exn (msg : String)
deriving Repr, DecidableEq

/-- The behaviour of a constructed client, as the per-query loop sees it. -/
def Client : Type := List Message → CallResult

/-- The mutable dict `data_to_log` (lines 68–75), with the keys that are
optionally added later (`request`, `response`, `sql_response`) as `Option`. -/
structure LogData where
  environment : String
  model : String
  instruction_size : Nat
  dataset_length : Nat
  severity : String
  is_sql : Nat
  request : Option (List Message)
  response : Option String
  sql_response : Option String
deriving Repr, DecidableEq

/-- One record appended by `log(message, data_to_log, log_file_path)`:
the stringified first argument plus the dict. -/
structure LogRecord where
  message : String
  data : LogData
deriving Repr, DecidableEq

instance : Inhabited LogData :=
  ⟨⟨"", "", 0, 0, "", 0, none, none, none⟩⟩

instance : Inhabited LogRecord := ⟨⟨"", default⟩⟩

/-- Everything one iteration of the query loop persists: the block appended to
the output file, the line appended to the metrics file, the record appended to
the log file, and what it prints to the console. -/
structure Emitted where
  outputRow : String
  metricsRow : String
  logRecord : LogRecord
  console : List String
deriving Repr, DecidableEq

instance : Inhabited Emitted := ⟨⟨"", "", default, []⟩⟩

/-! ### Small string helpers (Python semantics) -/

/-- `listIsPrefix p l` : does `p` occur at the head of `l`? -/
def listIsPrefix : List Char → List Char → Bool
  | [], _ => true
  | _ :: _, [] => false
  | a :: p, b :: l => a = b && listIsPrefix p l

/-- `listContains pat l` : does `pat` occur contiguously anywhere in `l`? -/
def listContains (pat : List Char) : List Char → Bool
  | [] => listIsPrefix pat []
  | b :: l => listIsPrefix pat (b :: l) || listContains pat l

/-- Python's substring test `pat in s`. -/
def strContainsPy (s pat : String) : Bool :=
  listContains pat.data s.data

/-- Python's `s.lower()`: lower-case the string character by character (the
script only ever feeds the result to the ASCII substring test for
`"select"`). -/
def strToLowerPy (s : String) : String :=
  ⟨s.data.map Char.toLower⟩

/-- `n` rendered with at least `w` digits (zero padded). -/
def padZeros (w : Nat) (n : Nat) : String :=
  let s := toString n
  String.mk (List.replicate (w - s.length) '0') ++ s

/-- `str()` of a non-negative Python `timedelta` of `micros` microseconds:
`[D day(s), ]H:MM:SS[.ffffff]`, hours unpadded, minutes/seconds two digits,
microseconds six digits and present only when non-zero. This is the format
interpolated into the metrics line by `f"{response_time},..."` (line 124). -/
def timedeltaStr (micros : Nat) : String :=
  let days := micros / 86400000000
  let rem := micros % 86400000000
  let secs := rem / 1000000
  let us := rem % 1000000
  let core :=
    toString (secs / 3600) ++ ":" ++ padZeros 2 (secs % 3600 / 60) ++ ":" ++
      padZeros 2 (secs % 60) ++ (if us = 0 then "" else "." ++ padZeros 6 us)
  if days = 0 then core
  else toString days ++ (if days = 1 then " day, " else " days, ") ++ core

/-! ### The per-query loop (`run_queries_on_anyscale`, lines 55–135) -/

/-- The two-message request built at lines 76–84: a system message obtained
from the prompt template by `.replace("[context]", context).replace("[question]", "")`,
then a user message carrying the question. -/
def reqFor (system_prompt : String) (q : Query) : List Message :=
  [⟨"system", (system_prompt.replace "[context]" q.context).replace "[question]" ""⟩,
   ⟨"user", q.question⟩]

/-- How the body of the `try` block (lines 67–125) ends for one query:
either it reaches a `write_to_file` (`success`, carrying everything emitted),
or an exception is raised inside it (`raised`), carrying the exception message
and — for the benefit of the `except` handler, which reads them — the values
the local names `data_to_log` and `hardness` hold at the point of the raise
(`none` when the name is unbound there, in which case the handler itself would
raise `NameError`). -/
inductive TryOutcome where
  | success (e : Emitted)
  | raised (msg : String) (data_to_log : Option LogData) (hardness : Option String)
deriving Repr, DecidableEq

/-- The message of the `NameError` Python would raise at line 116 if
`sql_response` were read while unbound. -/
def nameErrorSqlResponse : String :=
  "NameError: name sql_response is not defined"

/-- One execution of the `try` block (lines 67–125) for query `q`.  The two
operations that can raise are the client call (line 88, `CallResult.exn`) and
— were it reachable — the read of `sql_response` at line 116 on an iteration
that never bound it.  `sql_match` detection mirrors line 99: the extractor runs
only when `"select"` occurs in the lowercased content; otherwise only
`is_sql_match` is assigned and `sql_response` stays unbound (`none`). -/
def tryBody (sql_match : String → Bool × String) (client : Client)
    (model_name system_prompt : String) (instruction_size dataset_length : Nat)
    (q : Query) : TryOutcome :=
  let data_to_log : LogData :=
    { environment := HOST_ENV, model := model_name,
      instruction_size := instruction_size, dataset_length := dataset_length,
      severity := "info", is_sql := 0,
      request := none, response := none, sql_response := none }
  let req := reqFor system_prompt q
  let data_to_log := { data_to_log with request := some req }
  match client req with
  | .exn msg => .raised msg (some data_to_log) (some q.hardness)
  | .ok resp elapsedMicros =>
    let data_to_log := { data_to_log with response := some resp.raw }
    let llm_response_content := resp.content
    let llm_response_tokens := resp.usage.completion_tokens
    let llm_prompt_tokens := resp.usage.prompt_tokens
    let st :=
      if strContainsPy (strToLowerPy llm_response_content) "select" then
        let m := sql_match llm_response_content
        (m.1, some m.2)
      else
        (false, (none : Option String))
    let is_sql_match := st.1
    let sql_response := st.2
    if !is_sql_match then
      let data_to_log := { data_to_log with severity := "warn" }
      .success
        { outputRow := "I don\x27t know\n\n",
          metricsRow := "0," ++ toString llm_prompt_tokens ++ "," ++
            toString llm_response_tokens ++ "," ++ q.hardness ++ "\n",
          logRecord := ⟨"No SQL Output detected", data_to_log⟩,
          console := [] }
    else
      let data_to_log := { data_to_log with is_sql := 1 }
      match sql_response with
      | none => .raised nameErrorSqlResponse (some data_to_log) (some q.hardness)
      | some sql_response =>
        let data_to_log := { data_to_log with sql_response := some sql_response }
        let response_time := timedeltaStr elapsedMicros
        .success
          { outputRow := sql_response ++ "\n\n",
            metricsRow := response_time ++ "," ++ toString llm_prompt_tokens ++ "," ++
              toString llm_response_tokens ++ "," ++ q.hardness ++ "\n",
            logRecord := ⟨"SQL Response successful", data_to_log⟩,
            console := [] }

/-- Reading a Python local: raises `NameError` when the name is unbound. -/
def readVar (name : String) : Option α → Except String α
  | some a => .ok a
  | none => .error ("NameError: name " ++ name ++ " is not defined")

/-- One full iteration of the query loop, `try` body plus `except` handler
(lines 126–135).  The outer `Except.error` is an exception that escapes the
handler itself (the handler reads `data_to_log` and `hardness`; if either were
unbound the `NameError` would propagate out of `run_queries_on_anyscale`). -/
def processQuery (sql_match : String → Bool × String) (client : Client)
    (model_name system_prompt : String) (instruction_size dataset_length : Nat)
    (q : Query) : Except String Emitted :=
  match tryBody sql_match client model_name system_prompt instruction_size dataset_length q with
  | .success e => .ok e
  | .raised msg d h => do
    let data_to_log ← readVar "data_to_log" d
    let hardness ← readVar "hardness" h
    let data_to_log := { data_to_log with severity := "error" }
    .ok
      { outputRow := "An error occurred: " ++ msg ++ "\n\n",
        metricsRow := "0,0,0," ++ hardness ++ "\n",
        logRecord := ⟨msg, data_to_log⟩,
        console := ["exception:  " ++ msg] }

/-- The three append-only files a run writes, plus the console. -/
structure RunState where
  outputFile : List String
  metricsFile : List String
  logFile : List LogRecord
  console : List String
deriving Repr, DecidableEq

/-- Persist one iteration's results: `log(...)` appends to the log file and
`write_to_file(...)` appends the output block and the metrics line. -/
def emitTo (st : RunState) (e : Emitted) : RunState :=
  { outputFile := st.outputFile ++ [e.outputRow],
    metricsFile := st.metricsFile ++ [e.metricsRow],
    logFile := st.logFile ++ [e.logRecord],
    console := st.console ++ e.console }

/-- `run_queries_on_anyscale` (lines 55–135): the sequential per-query loop.
An exception escaping a handler (outer `.error`) aborts the remaining
queries, as it would in Python. -/
def run_queries_on_anyscale (sql_match : String → Bool × String) (client : Client)
    (model_name system_prompt : String) (instruction_size dataset_length : Nat) :
    List Query → RunState → Except String RunState
  | [], st => .ok st
  | q :: rest, st =>
    match processQuery sql_match client model_name system_prompt
        instruction_size dataset_length q with
    | .error e => .error e
    | .ok em =>
      run_queries_on_anyscale sql_match client model_name system_prompt
        instruction_size dataset_length rest (emitTo st em)

/-- The `Emitted` value of one loop iteration; total because (as proved below)
no iteration lets an exception escape its handler. -/
def emittedFor (sql_match : String → Bool × String) (client : Client)
    (model_name system_prompt : String) (instruction_size dataset_length : Nat)
    (q : Query) : Emitted :=
  match processQuery sql_match client model_name system_prompt
      instruction_size dataset_length q with
  | .ok e => e
  | .error _ => default

/-! ### The orchestrator (`multi_process`, lines 138–175) -/

/-- The configuration an `AsyncOpenAI(...)` constructor call receives:
the api key argument and the optional `base_url` argument. -/
structure ClientConfig where
  api_key : String
  base_url : Option String
deriving Repr, DecidableEq

/-- Lines 143–146: `if model_name in [ MODEL_GPT_4, MODEL_GPT_3]` pick the
OpenAI key with the default base URL, otherwise the Anyscale key and the
Anyscale base URL. -/
def clientConfigFor (model_name openai_key any_scale_api_key : String) : ClientConfig :=
  if model_name = MODEL_GPT_4 ∨ model_name = MODEL_GPT_3 then
    ⟨openai_key, none⟩
  else
    ⟨any_scale_api_key, some ANY_SCALE_BASE_URL⟩

/-- One `(dataset_length, query_list, gold_file_list)` tuple of `datasets_info`. -/
structure DatasetBucket where
  dataset_length : Nat
  query_list : List Query
  gold_file_list : List String
deriving Repr, DecidableEq

/-- Line 149: the per-run path
`{target_dir}/{HOST_ENV}/{model_name}/{instruction_size}_Instructions/{dataset_length}_Inferences`. -/
def model_file_path (target_dir model_name : String)
    (instruction_size dataset_length : Nat) : String :=
  target_dir ++ "/" ++ HOST_ENV ++ "/" ++ model_name ++ "/" ++
    toString instruction_size ++ "_Instructions/" ++
    toString dataset_length ++ "_Inferences"

/-- The observable actions of `multi_process`, in program order.  The wall
clock reporting and the `print` banners (pure console decoration) are elided;
`ranQueries` records which path's files the run wrote, which client (by its
configuration) it used, and the final file contents. -/
inductive Event where
  | clientConstructed (cfg : ClientConfig)
  | filesInitialized (path : String)
  | ranQueries (path : String) (cfg : ClientConfig) (st : RunState)
  | goldGenerated (gold : List String) (path : String)
deriving Repr, DecidableEq

/-- The `for dataset_length, query_list, gold_file_list in datasets_info` loop
(lines 148–175): per bucket, derive the path, initialize that path's files,
run the queries into them, then generate the gold file at the same path. -/
def mpLoop (sql_match : String → Bool × String) (client : Client) (cfg : ClientConfig)
    (model_name system_prompt target_dir : String) (instruction_size : Nat) :
    List DatasetBucket → Except String (List Event)
  | [] => .ok []
  | b :: rest => do
    let path := model_file_path target_dir model_name instruction_size b.dataset_length
    let st ← run_queries_on_anyscale sql_match client model_name system_prompt
      instruction_size b.dataset_length b.query_list ⟨[], [], [], []⟩
    let evs ← mpLoop sql_match client cfg model_name system_prompt target_dir
      instruction_size rest
    .ok ([.filesInitialized path, .ranQueries path cfg st,
          .goldGenerated b.gold_file_list path] ++ evs)

/-- `multi_process` (lines 138–175).  `initialize_system_prompt` (the prompt
template collaborator) and `client_behavior` (what a client constructed from a
given configuration answers to each request) are parameters; the client is
constructed once, before the bucket loop, and the same value is passed to
every bucket's run. -/
def multi_process (initialize_system_prompt : Nat → String)
    (sql_match : String → Bool × String)
    (client_behavior : ClientConfig → Client)
    (openai_key any_scale_api_key : String)
    (instruction_size : Nat) (datasets_info : List DatasetBucket)
    (model_name target_dir : String) : Except String (List Event) := do
  let system_prompt := initialize_system_prompt instruction_size
  let cfg := clientConfigFor model_name openai_key any_scale_api_key
  let client := client_behavior cfg
  let evs ← mpLoop sql_match client cfg model_name system_prompt target_dir
    instruction_size datasets_info
  .ok (.clientConstructed cfg :: evs)

/-! ### `main`'s inference-length handling (lines 178–181) -/

/-- Python's `str.split(sep)` with a one-character separator: splits at every
occurrence; the result is never empty (`"".split(",") == [""]`). -/
def splitPy (sep : Char) : List Char → List (List Char)
  | [] => [[]]
  | c :: cs =>
    if c = sep then [] :: splitPy sep cs
    else
      match splitPy sep cs with
      | [] => [[c]]
      | h :: t => (c :: h) :: t

/-- `s.split(sep)` on strings. -/
def str_split (s : String) (sep : Char) : List String :=
  (splitPy sep s.data).map fun l => ⟨l⟩

/-- Digit-string accumulator for `int(...)`. -/
def digitsNatAux : List Char → Nat → Option Nat
  | [], acc => some acc
  | c :: cs, acc =>
    if c.isDigit then digitsNatAux cs (acc * 10 + (c.toNat - 48)) else none

/-- A non-empty all-digit run, as a number. -/
def digitsNat : List Char → Option Nat
  | [] => none
  | c :: cs => digitsNatAux (c :: cs) 0

/-- Python's `s.strip()`: drop whitespace from both ends. -/
def trimPy (s : String) : String :=
  ⟨((s.data.dropWhile Char.isWhitespace).reverse.dropWhile Char.isWhitespace).reverse⟩

/-- Python's `int(s)` on a string: strip surrounding whitespace, optional
sign, then a non-empty digit run; anything else raises `ValueError`. -/
def int_of_string (s : String) : Except String Int :=
  let err : Except String Int :=
    .error ("ValueError: invalid literal for int with base 10: " ++ s)
  match (trimPy s).data with
  | [] => err
  | c :: rest =>
    let signed : Int × List Char :=
      if c = '-' then (-1, rest) else if c = '+' then (1, rest) else (1, c :: rest)
    match digitsNat signed.2 with
    | some n => .ok (signed.1 * n)
    | none => err

/-- Lines 180–181:
`inference_length_in_args = [int(inst) for inst in args.inf_length.split(",")]`
(a raising comprehension) then
`dataset_length_list = inference_length_in_args or Defaults.INFERENCE_LENGTH_LIST`
(`or` falls back exactly when the left list is empty). -/
def dataset_length_list_of (inf_length : String) (defaultList : List Int) :
    Except String (List Int) :=
  match (str_split inf_length ',').mapM int_of_string with
  | .error err => .error err
  | .ok inference_length_in_args =>
    .ok (if inference_length_in_args = [] then defaultList else inference_length_in_args)

/-! ### Characterisation of one loop iteration -/

/-- The `data_to_log` dict as it stands right after line 85 (request attached). -/
def baseLog (model_name : String) (instruction_size dataset_length : Nat)
    (req : List Message) : LogData :=
  { environment := HOST_ENV, model := model_name,
    instruction_size := instruction_size, dataset_length := dataset_length,
    severity := "info", is_sql := 0,
    request := some req, response := none, sql_response := none }

theorem tryBody_exn (sql_match : String → Bool × String) (client : Client)
    (mn sp : String) (is dl : Nat) (q : Query) (msg : String)
    (hc : client (reqFor sp q) = .exn msg) :
    tryBody sql_match client mn sp is dl q =
      .raised msg (some (baseLog mn is dl (reqFor sp q))) (some q.hardness) := by
  simp [tryBody, hc, baseLog]

theorem tryBody_noSelect (sql_match : String → Bool × String) (client : Client)
    (mn sp : String) (is dl : Nat) (q : Query) (resp : Response) (e : Nat)
    (hc : client (reqFor sp q) = .ok resp e)
    (hsel : strContainsPy (strToLowerPy resp.content) "select" = false) :
    tryBody sql_match client mn sp is dl q =
      .success
        { outputRow := "I don\x27t know\n\n",
          metricsRow := "0," ++ toString resp.usage.prompt_tokens ++ "," ++
            toString resp.usage.completion_tokens ++ "," ++ q.hardness ++ "\n",
          logRecord := ⟨"No SQL Output detected",
            { baseLog mn is dl (reqFor sp q) with
                severity := "warn", response := some resp.raw }⟩,
          console := [] } := by
  simp [tryBody, hc, hsel, baseLog]

theorem tryBody_unmatched (sql_match : String → Bool × String) (client : Client)
    (mn sp : String) (is dl : Nat) (q : Query) (resp : Response) (e : Nat)
    (hc : client (reqFor sp q) = .ok resp e)
    (hsel : strContainsPy (strToLowerPy resp.content) "select" = true)
    (hm : (sql_match resp.content).1 = false) :
    tryBody sql_match client mn sp is dl q =
      .success
        { outputRow := "I don\x27t know\n\n",
          metricsRow := "0," ++ toString resp.usage.prompt_tokens ++ "," ++
            toString resp.usage.completion_tokens ++ "," ++ q.hardness ++ "\n",
          logRecord := ⟨"No SQL Output detected",
            { baseLog mn is dl (reqFor sp q) with
                severity := "warn", response := some resp.raw }⟩,
          console := [] } := by
  simp [tryBody, hc, hsel, hm, baseLog]

theorem tryBody_matched (sql_match : String → Bool × String) (client : Client)
    (mn sp : String) (is dl : Nat) (q : Query) (resp : Response) (e : Nat)
    (hc : client (reqFor sp q) = .ok resp e)
    (hsel : strContainsPy (strToLowerPy resp.content) "select" = true)
    (hm : (sql_match resp.content).1 = true) :
    tryBody sql_match client mn sp is dl q =
      .success
        { outputRow := (sql_match resp.content).2 ++ "\n\n",
          metricsRow := timedeltaStr e ++ "," ++ toString resp.usage.prompt_tokens ++ "," ++
            toString resp.usage.completion_tokens ++ "," ++ q.hardness ++ "\n",
          logRecord := ⟨"SQL Response successful",
            { baseLog mn is dl (reqFor sp q) with
                is_sql := 1, response := some resp.raw,
                sql_response := some (sql_match resp.content).2 }⟩,
          console := [] } := by
  simp [tryBody, hc, hsel, hm, baseLog]

/-- The `Emitted` value of the `except` handler for exception message `msg`. -/
def errorEmit (mn : String) (is dl : Nat) (req : List Message) (hardness msg : String) :
    Emitted :=
  { outputRow := "An error occurred: " ++ msg ++ "\n\n",
    metricsRow := "0,0,0," ++ hardness ++ "\n",
    logRecord := ⟨msg, { baseLog mn is dl req with severity := "error" }⟩,
    console := ["exception:  " ++ msg] }

theorem processQuery_success (sql_match : String → Bool × String) (client : Client)
    (mn sp : String) (is dl : Nat) (q : Query) (e : Emitted)
    (h : tryBody sql_match client mn sp is dl q = .success e) :
    processQuery sql_match client mn sp is dl q = .ok e := by
  simp [processQuery, h]

theorem processQuery_exn (sql_match : String → Bool × String) (client : Client)
    (mn sp : String) (is dl : Nat) (q : Query) (msg : String)
    (hc : client (reqFor sp q) = .exn msg) :
    processQuery sql_match client mn sp is dl q =
      .ok (errorEmit mn is dl (reqFor sp q) q.hardness msg) := by
  simp [processQuery, tryBody_exn sql_match client mn sp is dl q msg hc, readVar,
    errorEmit, Bind.bind, Except.bind]

/-- Every iteration ends with the handler absorbing any exception: nothing
escapes `processQuery`. -/
theorem processQuery_isOk (sql_match : String → Bool × String) (client : Client)
    (mn sp : String) (is dl : Nat) (q : Query) :
    ∃ e, processQuery sql_match client mn sp is dl q = .ok e := by
  rcases hc : client (reqFor sp q) with ⟨resp, e⟩ | msg
  · rcases hsel : strContainsPy (strToLowerPy resp.content) "select" with _ | _
    · exact ⟨_, processQuery_success sql_match client mn sp is dl q _
        (tryBody_noSelect sql_match client mn sp is dl q resp e hc hsel)⟩
    · rcases hm : (sql_match resp.content).1 with _ | _
      · exact ⟨_, processQuery_success sql_match client mn sp is dl q _
          (tryBody_unmatched sql_match client mn sp is dl q resp e hc hsel hm)⟩
      · exact ⟨_, processQuery_success sql_match client mn sp is dl q _
          (tryBody_matched sql_match client mn sp is dl q resp e hc hsel hm)⟩
  · exact ⟨_, processQuery_exn sql_match client mn sp is dl q msg hc⟩

theorem processQuery_eq_emittedFor (sql_match : String → Bool × String) (client : Client)
    (mn sp : String) (is dl : Nat) (q : Query) :
    processQuery sql_match client mn sp is dl q =
      .ok (emittedFor sql_match client mn sp is dl q) := by
  obtain ⟨e, he⟩ := processQuery_isOk sql_match client mn sp is dl q
  rw [he, emittedFor, he]

/-! ### The run as a whole -/

/-- The file contents a run over `queries` produces when started on fresh
(empty) files: one output block, one metrics line and one log record per
query, each obtained from that query's iteration. -/
def runResult (sql_match : String → Bool × String) (client : Client)
    (mn sp : String) (is dl : Nat) (queries : List Query) : RunState :=
  { outputFile := queries.map fun q => (emittedFor sql_match client mn sp is dl q).outputRow,
    metricsFile := queries.map fun q => (emittedFor sql_match client mn sp is dl q).metricsRow,
    logFile := queries.map fun q => (emittedFor sql_match client mn sp is dl q).logRecord,
    console := queries.flatMap fun q => (emittedFor sql_match client mn sp is dl q).console }

theorem run_queries_eq (sql_match : String → Bool × String) (client : Client)
    (mn sp : String) (is dl : Nat) (queries : List Query) :
    ∀ st : RunState,
    run_queries_on_anyscale sql_match client mn sp is dl queries st =
      .ok { outputFile := st.outputFile ++ (runResult sql_match client mn sp is dl queries).outputFile,
            metricsFile := st.metricsFile ++ (runResult sql_match client mn sp is dl queries).metricsFile,
            logFile := st.logFile ++ (runResult sql_match client mn sp is dl queries).logFile,
            console := st.console ++ (runResult sql_match client mn sp is dl queries).console } := by
  induction queries with
  | nil => intro st; simp [run_queries_on_anyscale, runResult]
  | cons q rest ih =>
    intro st
    simp only [run_queries_on_anyscale,
      processQuery_eq_emittedFor sql_match client mn sp is dl q]
    rw [ih]
    simp [runResult, emitTo, List.append_assoc]

/-! ### Claims -/

/-- C1: for every input query list of length N given to
`run_queries_on_anyscale`, the run completes and produces exactly N output
row-blocks, N metrics lines and N log records, in the same order as the input
query sequence, one triple per input query (each list is the input list mapped
through that query's own iteration) — also when a query's handling fails, so a
row is always emitted, never skipped. -/
theorem C1_one_triple_per_query (sql_match : String → Bool × String) (client : Client)
    (mn sp : String) (is dl : Nat) (queries : List Query) (st : RunState) :
    ∃ st2 : RunState,
      run_queries_on_anyscale sql_match client mn sp is dl queries st = .ok st2 ∧
      st2.outputFile = st.outputFile ++
        queries.map (fun q => (emittedFor sql_match client mn sp is dl q).outputRow) ∧
      st2.metricsFile = st.metricsFile ++
        queries.map (fun q => (emittedFor sql_match client mn sp is dl q).metricsRow) ∧
      st2.logFile = st.logFile ++
        queries.map (fun q => (emittedFor sql_match client mn sp is dl q).logRecord) ∧
      st2.outputFile.length = st.outputFile.length + queries.length ∧
      st2.metricsFile.length = st.metricsFile.length + queries.length ∧
      st2.logFile.length = st.logFile.length + queries.length := by
  refine ⟨_, run_queries_eq sql_match client mn sp is dl queries st, ?_, ?_, ?_, ?_, ?_, ?_⟩ <;>
    simp [runResult]

/-- C2: for every query whose request/response handling raises an exception,
the iteration logs that exception with `severity = "error"` (request context
attached), prints a diagnostic to the console, emits the output block
`"An error occurred: <message>"` and the metrics line `0,0,0,<hardness>`, and
the loop continues with the remaining queries — the exception never escapes
`run_queries_on_anyscale`. -/
theorem C2_error_absorbed (sql_match : String → Bool × String) (client : Client)
    (mn sp : String) (is dl : Nat) (q : Query) (msg : String)
    (hc : client (reqFor sp q) = .exn msg) :
    processQuery sql_match client mn sp is dl q =
      .ok { outputRow := "An error occurred: " ++ msg ++ "\n\n",
            metricsRow := "0,0,0," ++ q.hardness ++ "\n",
            logRecord := ⟨msg, { baseLog mn is dl (reqFor sp q) with severity := "error" }⟩,
            console := ["exception:  " ++ msg] } ∧
    ∀ (rest : List Query) (st : RunState),
      run_queries_on_anyscale sql_match client mn sp is dl (q :: rest) st =
        run_queries_on_anyscale sql_match client mn sp is dl rest
          (emitTo st (errorEmit mn is dl (reqFor sp q) q.hardness msg)) := by
  refine ⟨processQuery_exn sql_match client mn sp is dl q msg hc, fun rest st => ?_⟩
  simp only [run_queries_on_anyscale, processQuery_exn sql_match client mn sp is dl q msg hc]

/-- C2 witness: a client that raises `"boom"` on a concrete query. -/
theorem C2_error_absorbed_witness :
    processQuery (fun s => (true, s)) (fun _ => .exn "boom") "m" "tpl" 1 2
        ⟨"c", "q", "easy"⟩ =
      .ok { outputRow := "An error occurred: boom\n\n",
            metricsRow := "0,0,0,easy\n",
            logRecord := ⟨"boom",
              { baseLog "m" 1 2 (reqFor "tpl" ⟨"c", "q", "easy"⟩) with severity := "error" }⟩,
            console := ["exception:  boom"] } ∧
    run_queries_on_anyscale (fun s => (true, s)) (fun _ => .exn "boom") "m" "tpl" 1 2
        [⟨"c", "q", "easy"⟩, ⟨"c2", "q2", "hard"⟩] ⟨[], [], [], []⟩ =
      run_queries_on_anyscale (fun s => (true, s)) (fun _ => .exn "boom") "m" "tpl" 1 2
        [⟨"c2", "q2", "hard"⟩]
        (emitTo ⟨[], [], [], []⟩
          (errorEmit "m" 1 2 (reqFor "tpl" ⟨"c", "q", "easy"⟩) "easy" "boom")) :=
  ⟨(C2_error_absorbed (fun s => (true, s)) (fun _ => .exn "boom") "m" "tpl" 1 2
      ⟨"c", "q", "easy"⟩ "boom" rfl).1,
   (C2_error_absorbed (fun s => (true, s)) (fun _ => .exn "boom") "m" "tpl" 1 2
      ⟨"c", "q", "easy"⟩ "boom" rfl).2 [⟨"c2", "q2", "hard"⟩] ⟨[], [], [], []⟩⟩

/-- C3: for every successful response whose content has no `"select"`
substring (case-insensitively), the iteration is independent of the SQL
extractor — `sql_match` is never consulted — and it emits the warn log record
`"No SQL Output detected"`, the output block `"I don't know"`, and the metrics
line `0,<prompt_tokens>,<completion_tokens>,<hardness>`: time zeroed, token
counts taken from the actual response. -/
theorem C3_no_select_short_circuit (sql_match : String → Bool × String)
    (client : Client) (mn sp : String) (is dl : Nat) (q : Query)
    (resp : Response) (e : Nat)
    (hc : client (reqFor sp q) = .ok resp e)
    (hsel : strContainsPy (strToLowerPy resp.content) "select" = false) :
    (∀ sm1 sm2 : String → Bool × String,
      processQuery sm1 client mn sp is dl q = processQuery sm2 client mn sp is dl q) ∧
    processQuery sql_match client mn sp is dl q =
      .ok { outputRow := "I don\x27t know\n\n",
            metricsRow := "0," ++ toString resp.usage.prompt_tokens ++ "," ++
              toString resp.usage.completion_tokens ++ "," ++ q.hardness ++ "\n",
            logRecord := ⟨"No SQL Output detected",
              { baseLog mn is dl (reqFor sp q) with
                  severity := "warn", response := some resp.raw }⟩,
            console := [] } := by
  have key : ∀ sm : String → Bool × String,
      processQuery sm client mn sp is dl q =
        .ok { outputRow := "I don\x27t know\n\n",
              metricsRow := "0," ++ toString resp.usage.prompt_tokens ++ "," ++
                toString resp.usage.completion_tokens ++ "," ++ q.hardness ++ "\n",
              logRecord := ⟨"No SQL Output detected",
                { baseLog mn is dl (reqFor sp q) with
                    severity := "warn", response := some resp.raw }⟩,
              console := [] } := fun sm =>
    processQuery_success sm client mn sp is dl q _
      (tryBody_noSelect sm client mn sp is dl q resp e hc hsel)
  exact ⟨fun sm1 sm2 => (key sm1).trans (key sm2).symm, key sql_match⟩

/-- C3 witness: a concrete response with no `"select"` substring. -/
theorem C3_no_select_short_circuit_witness :
    (processQuery (fun _ => (true, "bogus"))
        (fun _ => .ok ⟨"I cannot help", ⟨7, 3⟩, "raw"⟩ 5) "m" "tpl" 1 2
        ⟨"c", "q", "hard"⟩ =
      processQuery (fun _ => (false, "other"))
        (fun _ => .ok ⟨"I cannot help", ⟨7, 3⟩, "raw"⟩ 5) "m" "tpl" 1 2
        ⟨"c", "q", "hard"⟩) ∧
    processQuery (fun s => (true, s))
        (fun _ => .ok ⟨"I cannot help", ⟨7, 3⟩, "raw"⟩ 5) "m" "tpl" 1 2
        ⟨"c", "q", "hard"⟩ =
      .ok { outputRow := "I don\x27t know\n\n",
            metricsRow := "0," ++ toString (7 : Nat) ++ "," ++ toString (3 : Nat) ++
              "," ++ "hard" ++ "\n",
            logRecord := ⟨"No SQL Output detected",
              { baseLog "m" 1 2 (reqFor "tpl" ⟨"c", "q", "hard"⟩) with
                  severity := "warn", response := some "raw" }⟩,
            console := [] } :=
  ⟨(C3_no_select_short_circuit (fun s => (true, s))
      (fun _ => .ok ⟨"I cannot help", ⟨7, 3⟩, "raw"⟩ 5) "m" "tpl" 1 2
      ⟨"c", "q", "hard"⟩ ⟨"I cannot help", ⟨7, 3⟩, "raw"⟩ 5 rfl (by decide)).1
      (fun _ => (true, "bogus")) (fun _ => (false, "other")),
   (C3_no_select_short_circuit (fun s => (true, s))
      (fun _ => .ok ⟨"I cannot help", ⟨7, 3⟩, "raw"⟩ 5) "m" "tpl" 1 2
      ⟨"c", "q", "hard"⟩ ⟨"I cannot help", ⟨7, 3⟩, "raw"⟩ 5 rfl (by decide)).2⟩

theorem emittedFor_of_processQuery (sql_match : String → Bool × String)
    (client : Client) (mn sp : String) (is dl : Nat) (q : Query) (e : Emitted)
    (h : processQuery sql_match client mn sp is dl q = .ok e) :
    emittedFor sql_match client mn sp is dl q = e := by
  simp [emittedFor, h]

/-- Modelled from the spec: a time value "expressed in seconds"
(`time,prompt_tokens,completion_tokens,hardness` with
"response_time (seconds or error sentinel 0)") would be a plain decimal
numeral — digits, optionally followed by a point and digits. -/
def isSecondsNumeral (s : String) : Bool :=
  match splitPy '.' s.data with
  | [a] => !a.isEmpty && a.all Char.isDigit
  | [a, b] => (!a.isEmpty && a.all Char.isDigit) && (!b.isEmpty && b.all Char.isDigit)
  | _ => false

/-- C4 counterexample: a successful, SQL-matched query whose round trip took
90 seconds writes `0:01:30` — the `str()` of a Python `timedelta`, not the
round-trip time expressed in seconds — as the time field of its metrics
line. -/
theorem C4_counterexample :
    (emittedFor (fun _ => (true, "select 1"))
        (fun _ => .ok ⟨"here: select 1", ⟨10, 5⟩, "raw"⟩ 90000000) "m" "tpl" 1 2
        ⟨"c", "q", "easy"⟩).metricsRow = "0:01:30,10,5,easy\n" ∧
    timedeltaStr 90000000 = "0:01:30" ∧
    isSecondsNumeral "0:01:30" = false ∧
    ("0:01:30" : String) ≠ "90" ∧ ("0:01:30" : String) ≠ "90.0" := by
  have h := processQuery_success (fun _ => (true, "select 1"))
    (fun _ => .ok ⟨"here: select 1", ⟨10, 5⟩, "raw"⟩ 90000000) "m" "tpl" 1 2
    ⟨"c", "q", "easy"⟩ _
    (tryBody_matched (fun _ => (true, "select 1"))
      (fun _ => .ok ⟨"here: select 1", ⟨10, 5⟩, "raw"⟩ 90000000) "m" "tpl" 1 2
      ⟨"c", "q", "easy"⟩ ⟨"here: select 1", ⟨10, 5⟩, "raw"⟩ 90000000
      rfl (by decide) rfl)
  rw [emittedFor_of_processQuery _ _ _ _ _ _ _ _ h]
  exact ⟨by decide, by decide, by decide, by decide, by decide⟩

/-- C4 as amended: every metrics line is
`<time>,<prompt_tokens>,<completion_tokens>,<hardness>`, where the time field
is `0` on failure (alongside zeroed token counts) and on extraction miss, and
on a successful extraction it is the `str()` of the round-trip `timedelta`
(`H:MM:SS[.ffffff]`, days-prefixed beyond 24 hours) rather than a number of
seconds. -/
theorem C4_metrics_time_field (sql_match : String → Bool × String)
    (client : Client) (mn sp : String) (is dl : Nat) (q : Query) :
    (∀ msg, client (reqFor sp q) = .exn msg →
      (emittedFor sql_match client mn sp is dl q).metricsRow =
        "0,0,0," ++ q.hardness ++ "\n") ∧
    (∀ resp e, client (reqFor sp q) = .ok resp e →
      strContainsPy (strToLowerPy resp.content) "select" = false ∨
        (sql_match resp.content).1 = false →
      (emittedFor sql_match client mn sp is dl q).metricsRow =
        "0," ++ toString resp.usage.prompt_tokens ++ "," ++
          toString resp.usage.completion_tokens ++ "," ++ q.hardness ++ "\n") ∧
    (∀ resp e, client (reqFor sp q) = .ok resp e →
      strContainsPy (strToLowerPy resp.content) "select" = true →
      (sql_match resp.content).1 = true →
      (emittedFor sql_match client mn sp is dl q).metricsRow =
        timedeltaStr e ++ "," ++ toString resp.usage.prompt_tokens ++ "," ++
          toString resp.usage.completion_tokens ++ "," ++ q.hardness ++ "\n") := by
  refine ⟨fun msg hc => ?_, fun resp e hc hmiss => ?_, fun resp e hc hsel hm => ?_⟩
  · rw [emittedFor_of_processQuery sql_match client mn sp is dl q _
      (processQuery_exn sql_match client mn sp is dl q msg hc)]
    rfl
  · rcases hmiss with hsel | hm
    · rw [emittedFor_of_processQuery sql_match client mn sp is dl q _
        (processQuery_success sql_match client mn sp is dl q _
          (tryBody_noSelect sql_match client mn sp is dl q resp e hc hsel))]
    · rcases hsel : strContainsPy (strToLowerPy resp.content) "select" with _ | _
      · rw [emittedFor_of_processQuery sql_match client mn sp is dl q _
          (processQuery_success sql_match client mn sp is dl q _
            (tryBody_noSelect sql_match client mn sp is dl q resp e hc hsel))]
      · rw [emittedFor_of_processQuery sql_match client mn sp is dl q _
          (processQuery_success sql_match client mn sp is dl q _
            (tryBody_unmatched sql_match client mn sp is dl q resp e hc hsel hm))]
  · rw [emittedFor_of_processQuery sql_match client mn sp is dl q _
      (processQuery_success sql_match client mn sp is dl q _
        (tryBody_matched sql_match client mn sp is dl q resp e hc hsel hm))]

/-- C4 witness: the three metrics-line shapes at concrete inputs — a raising
client, a response without SQL, and a matched response that took 1.5
seconds. -/
theorem C4_metrics_time_field_witness :
    (emittedFor (fun s => (true, s)) (fun _ => .exn "boom") "m" "tpl" 1 2
        ⟨"c", "q", "easy"⟩).metricsRow = "0,0,0,easy\n" ∧
    (emittedFor (fun s => (true, s))
        (fun _ => .ok ⟨"I cannot help", ⟨7, 3⟩, "raw"⟩ 5) "m" "tpl" 1 2
        ⟨"c", "q", "hard"⟩).metricsRow = "0,7,3,hard\n" ∧
    (emittedFor (fun _ => (true, "select 1"))
        (fun _ => .ok ⟨"here: select 1", ⟨10, 5⟩, "raw"⟩ 1500000) "m" "tpl" 1 2
        ⟨"c", "q", "easy"⟩).metricsRow = "0:00:01.500000,10,5,easy\n" := by
  refine ⟨?_, ?_, ?_⟩
  · rw [(C4_metrics_time_field (fun s => (true, s)) (fun _ => .exn "boom") "m" "tpl" 1 2
      ⟨"c", "q", "easy"⟩).1 "boom" rfl]
    decide
  · rw [(C4_metrics_time_field (fun s => (true, s))
      (fun _ => .ok ⟨"I cannot help", ⟨7, 3⟩, "raw"⟩ 5) "m" "tpl" 1 2
      ⟨"c", "q", "hard"⟩).2.1 ⟨"I cannot help", ⟨7, 3⟩, "raw"⟩ 5 rfl (Or.inl (by decide))]
    decide
  · rw [(C4_metrics_time_field (fun _ => (true, "select 1"))
      (fun _ => .ok ⟨"here: select 1", ⟨10, 5⟩, "raw"⟩ 1500000) "m" "tpl" 1 2
      ⟨"c", "q", "easy"⟩).2.2 ⟨"here: select 1", ⟨10, 5⟩, "raw"⟩ 1500000 rfl
      (by decide) rfl]
    decide

/-- The request is logged in every branch of the iteration. -/
theorem emittedFor_request (sql_match : String → Bool × String) (client : Client)
    (mn sp : String) (is dl : Nat) (q : Query) :
    (emittedFor sql_match client mn sp is dl q).logRecord.data.request =
      some (reqFor sp q) := by
  rcases hc : client (reqFor sp q) with ⟨resp, e⟩ | msg
  · rcases hsel : strContainsPy (strToLowerPy resp.content) "select" with _ | _
    · rw [emittedFor_of_processQuery sql_match client mn sp is dl q _
        (processQuery_success sql_match client mn sp is dl q _
          (tryBody_noSelect sql_match client mn sp is dl q resp e hc hsel))]
      rfl
    · rcases hm : (sql_match resp.content).1 with _ | _
      · rw [emittedFor_of_processQuery sql_match client mn sp is dl q _
          (processQuery_success sql_match client mn sp is dl q _
            (tryBody_unmatched sql_match client mn sp is dl q resp e hc hsel hm))]
        rfl
      · rw [emittedFor_of_processQuery sql_match client mn sp is dl q _
          (processQuery_success sql_match client mn sp is dl q _
            (tryBody_matched sql_match client mn sp is dl q resp e hc hsel hm))]
        rfl
  · rw [emittedFor_of_processQuery sql_match client mn sp is dl q _
      (processQuery_exn sql_match client mn sp is dl q msg hc)]
    rfl

/-- C5: for every query, the request sent to the model endpoint is exactly two
messages — a system message equal to the prompt template with `"[context]"`
replaced by the query's context and `"[question]"` replaced by the empty
string (every occurrence, via the chained `.replace` calls of line 79), then a
user message whose content is the question text.  The iteration consults the
client only at that request (two clients that agree there behave
identically), and the logged request is that same two-message list. -/
theorem C5_request_two_messages (sql_match : String → Bool × String)
    (client : Client) (mn sp : String) (is dl : Nat) (q : Query) :
    reqFor sp q =
      [⟨"system", (sp.replace "[context]" q.context).replace "[question]" ""⟩,
       ⟨"user", q.question⟩] ∧
    (∀ c2 : Client, c2 (reqFor sp q) = client (reqFor sp q) →
      processQuery sql_match c2 mn sp is dl q =
        processQuery sql_match client mn sp is dl q) ∧
    (emittedFor sql_match client mn sp is dl q).logRecord.data.request =
      some (reqFor sp q) := by
  refine ⟨rfl, fun c2 h => ?_, emittedFor_request sql_match client mn sp is dl q⟩
  simp only [processQuery, tryBody, h]

/-- C5 witness: a concrete query; the two clients agree on the built request
(both raise `"x"` there) yet differ elsewhere. -/
theorem C5_request_two_messages_witness :
    reqFor "pre" ⟨"C", "Q", "h"⟩ =
      [⟨"system", ("pre".replace "[context]" "C").replace "[question]" ""⟩,
       ⟨"user", "Q"⟩] ∧
    processQuery (fun s => (true, s))
        (fun msgs => if msgs.length = 2 then .exn "x" else .ok ⟨"y", ⟨0, 0⟩, "r"⟩ 0)
        "m" "pre" 1 2 ⟨"C", "Q", "h"⟩ =
      processQuery (fun s => (true, s)) (fun _ => .exn "x") "m" "pre" 1 2
        ⟨"C", "Q", "h"⟩ ∧
    (emittedFor (fun s => (true, s)) (fun _ => .exn "x") "m" "pre" 1 2
        ⟨"C", "Q", "h"⟩).logRecord.data.request =
      some (reqFor "pre" ⟨"C", "Q", "h"⟩) :=
  ⟨(C5_request_two_messages (fun s => (true, s)) (fun _ => .exn "x") "m" "pre" 1 2
      ⟨"C", "Q", "h"⟩).1,
   (C5_request_two_messages (fun s => (true, s)) (fun _ => .exn "x") "m" "pre" 1 2
      ⟨"C", "Q", "h"⟩).2.1
     (fun msgs => if msgs.length = 2 then .exn "x" else .ok ⟨"y", ⟨0, 0⟩, "r"⟩ 0) rfl,
   (C5_request_two_messages (fun s => (true, s)) (fun _ => .exn "x") "m" "pre" 1 2
      ⟨"C", "Q", "h"⟩).2.2⟩

/-- The three observable actions of one bucket, in program order. -/
def bucketTrace (sql_match : String → Bool × String) (client : Client)
    (cfg : ClientConfig) (mn sp td : String) (is : Nat) (b : DatasetBucket) :
    List Event :=
  [.filesInitialized (model_file_path td mn is b.dataset_length),
   .ranQueries (model_file_path td mn is b.dataset_length) cfg
     (runResult sql_match client mn sp is b.dataset_length b.query_list),
   .goldGenerated b.gold_file_list (model_file_path td mn is b.dataset_length)]

theorem mpLoop_eq (sql_match : String → Bool × String) (client : Client)
    (cfg : ClientConfig) (mn sp td : String) (is : Nat)
    (buckets : List DatasetBucket) :
    mpLoop sql_match client cfg mn sp td is buckets =
      .ok (buckets.flatMap (bucketTrace sql_match client cfg mn sp td is)) := by
  induction buckets with
  | nil => rfl
  | cons b rest ih =>
    simp only [mpLoop,
      run_queries_eq sql_match client mn sp is b.dataset_length b.query_list
        ⟨[], [], [], []⟩, ih]
    rfl

theorem multi_process_eq (initialize_system_prompt : Nat → String)
    (sql_match : String → Bool × String) (client_behavior : ClientConfig → Client)
    (openai_key any_scale_api_key : String) (instruction_size : Nat)
    (datasets_info : List DatasetBucket) (model_name target_dir : String) :
    multi_process initialize_system_prompt sql_match client_behavior
        openai_key any_scale_api_key instruction_size datasets_info
        model_name target_dir =
      .ok (.clientConstructed (clientConfigFor model_name openai_key any_scale_api_key) ::
        datasets_info.flatMap
          (bucketTrace sql_match
            (client_behavior (clientConfigFor model_name openai_key any_scale_api_key))
            (clientConfigFor model_name openai_key any_scale_api_key)
            model_name (initialize_system_prompt instruction_size) target_dir
            instruction_size)) := by
  simp only [multi_process, mpLoop_eq]
  rfl

/-- Is this event the construction of a client? -/
def isClientConstructed : Event → Bool
  | .clientConstructed _ => true
  | _ => false

theorem bucketTrace_no_client (sql_match : String → Bool × String) (client : Client)
    (cfg : ClientConfig) (mn sp td : String) (is : Nat)
    (buckets : List DatasetBucket) :
    ((buckets.flatMap (bucketTrace sql_match client cfg mn sp td is)).filter
      isClientConstructed) = [] := by
  induction buckets with
  | nil => rfl
  | cons b rest ih =>
    simp [List.flatMap_cons, List.filter_append, ih, bucketTrace, isClientConstructed]

/-- C6: the client bound by `multi_process` is the commercial provider's key
with no alternate base URL exactly when the model identifier is one of the two
gpt models, and the Anyscale key plus the Anyscale base endpoint otherwise;
the whole invocation constructs exactly one client, and every bucket's query
run uses that one client. -/
theorem C6_client_selection (initialize_system_prompt : Nat → String)
    (sql_match : String → Bool × String) (client_behavior : ClientConfig → Client)
    (openai_key any_scale_api_key : String) (instruction_size : Nat)
    (datasets_info : List DatasetBucket) (model_name target_dir : String) :
    (model_name ∈ [ MODEL_GPT_4, MODEL_GPT_3] →
      clientConfigFor model_name openai_key any_scale_api_key = ⟨openai_key, none⟩) ∧
    (model_name ∉ [ MODEL_GPT_4, MODEL_GPT_3] →
      clientConfigFor model_name openai_key any_scale_api_key =
        ⟨any_scale_api_key, some ANY_SCALE_BASE_URL⟩) ∧
    ∃ evs : List Event,
      multi_process initialize_system_prompt sql_match client_behavior
          openai_key any_scale_api_key instruction_size datasets_info
          model_name target_dir = .ok evs ∧
      evs.filter isClientConstructed =
        [.clientConstructed (clientConfigFor model_name openai_key any_scale_api_key)] ∧
      ∀ p c st, Event.ranQueries p c st ∈ evs →
        c = clientConfigFor model_name openai_key any_scale_api_key := by
  refine ⟨?_, ?_, ?_⟩
  · intro h
    simp only [List.mem_cons, List.mem_singleton, List.not_mem_nil, or_false] at h
    simp [clientConfigFor, h]
  · intro h
    simp only [List.mem_cons, List.mem_singleton, List.not_mem_nil, or_false] at h
    push_neg at h
    simp [clientConfigFor, h.1, h.2]
  · refine ⟨_, multi_process_eq initialize_system_prompt sql_match client_behavior
      openai_key any_scale_api_key instruction_size datasets_info model_name
      target_dir, ?_, ?_⟩
    · rw [List.filter_cons]
      simp [isClientConstructed, bucketTrace_no_client]
    · intro p c st h
      rcases List.mem_cons.mp h with h0 | h1
      · exact absurd h0 (by simp)
      · rw [List.mem_flatMap] at h1
        obtain ⟨b, _, hb⟩ := h1
        simp only [bucketTrace, List.mem_cons, List.mem_singleton,
          List.not_mem_nil, or_false] at hb
        rcases hb with h1 | h2 | h3
        · exact absurd h1 (by simp)
        · exact (Event.ranQueries.injEq _ _ _ _ _ _).mp h2 |>.2.1
        · exact absurd h3 (by simp)

/-- C6 witness: the selection at a gpt model and at a non-gpt model. -/
theorem C6_client_selection_witness :
    clientConfigFor MODEL_GPT_4 "okey" "akey" = ⟨"okey", none⟩ ∧
    clientConfigFor MODEL_META_LLAMA "okey" "akey" =
      ⟨"akey", some ANY_SCALE_BASE_URL⟩ :=
  ⟨(C6_client_selection (fun _ => "tpl") (fun s => (true, s)) (fun _ _ => .exn "x")
      "okey" "akey" 1 [⟨5, [], []⟩] MODEL_GPT_4 "t").1 (by decide),
   (C6_client_selection (fun _ => "tpl") (fun s => (true, s)) (fun _ _ => .exn "x")
      "okey" "akey" 1 [⟨5, [], []⟩] MODEL_META_LLAMA "t").2.1 (by decide)⟩

/-- C7: `multi_process` processes the dataset buckets strictly sequentially in
the order supplied; for each bucket it first initialises the files at the
per-run path `{target}/{environment}/{model}/{instructionSize}_Instructions/{datasetLength}_Inferences`,
then runs the queries into that path's files, and only after that run
completes triggers gold-file generation for the bucket at that same path. -/
theorem C7_bucket_sequencing (initialize_system_prompt : Nat → String)
    (sql_match : String → Bool × String) (client_behavior : ClientConfig → Client)
    (openai_key any_scale_api_key : String) (instruction_size : Nat)
    (datasets_info : List DatasetBucket) (model_name target_dir : String) :
    multi_process initialize_system_prompt sql_match client_behavior
        openai_key any_scale_api_key instruction_size datasets_info
        model_name target_dir =
      .ok (.clientConstructed (clientConfigFor model_name openai_key any_scale_api_key) ::
        datasets_info.flatMap fun b =>
          [.filesInitialized (target_dir ++ "/" ++ HOST_ENV ++ "/" ++ model_name ++ "/" ++
             toString instruction_size ++ "_Instructions/" ++
             toString b.dataset_length ++ "_Inferences"),
           .ranQueries (target_dir ++ "/" ++ HOST_ENV ++ "/" ++ model_name ++ "/" ++
             toString instruction_size ++ "_Instructions/" ++
             toString b.dataset_length ++ "_Inferences")
             (clientConfigFor model_name openai_key any_scale_api_key)
             (runResult sql_match
               (client_behavior (clientConfigFor model_name openai_key any_scale_api_key))
               model_name (initialize_system_prompt instruction_size)
               instruction_size b.dataset_length b.query_list),
           .goldGenerated b.gold_file_list
             (target_dir ++ "/" ++ HOST_ENV ++ "/" ++ model_name ++ "/" ++
              toString instruction_size ++ "_Instructions/" ++
              toString b.dataset_length ++ "_Inferences")]) := by
  rw [multi_process_eq]
  rfl

/-! ### Determinism modulo timing -/

theorem string_append_assoc (a b c : String) : a ++ b ++ c = a ++ (b ++ c) := by
  cases a with | _ da => cases b with | _ db => cases c with | _ dc =>
  show String.mk ((da ++ db) ++ dc) = String.mk (da ++ (db ++ dc))
  rw [List.append_assoc]

/-- Two metrics lines are equal up to their leading time field: both are a
time string, a comma, and a shared remainder. -/
def EqModuloTime (l1 l2 : String) : Prop :=
  ∃ t1 t2 rest, l1 = t1 ++ "," ++ rest ∧ l2 = t2 ++ "," ++ rest

/-- Two clients that answer every request with the same outcome — the same
exception or the same response — though possibly with different round-trip
times.  This is the stubbed deterministic client of the idempotence property:
responses are deterministic, wall-clock timing is not. -/
def AgreeModuloTiming (c1 c2 : Client) : Prop :=
  ∀ req, (∃ msg, c1 req = .exn msg ∧ c2 req = .exn msg) ∨
    (∃ resp e1 e2, c1 req = .ok resp e1 ∧ c2 req = .ok resp e2)

theorem emittedFor_agree (sql_match : String → Bool × String) (c1 c2 : Client)
    (mn sp : String) (is dl : Nat) (q : Query) (h : AgreeModuloTiming c1 c2) :
    (emittedFor sql_match c1 mn sp is dl q).outputRow =
      (emittedFor sql_match c2 mn sp is dl q).outputRow ∧
    EqModuloTime (emittedFor sql_match c1 mn sp is dl q).metricsRow
      (emittedFor sql_match c2 mn sp is dl q).metricsRow := by
  rcases h (reqFor sp q) with ⟨msg, h1, h2⟩ | ⟨resp, e1, e2, h1, h2⟩
  · rw [emittedFor_of_processQuery sql_match c1 mn sp is dl q _
        (processQuery_exn sql_match c1 mn sp is dl q msg h1),
      emittedFor_of_processQuery sql_match c2 mn sp is dl q _
        (processQuery_exn sql_match c2 mn sp is dl q msg h2)]
    exact ⟨rfl, "0", "0", "0,0," ++ (q.hardness ++ "\n"), rfl, rfl⟩
  · rcases hsel : strContainsPy (strToLowerPy resp.content) "select" with _ | _
    · rw [emittedFor_of_processQuery sql_match c1 mn sp is dl q _
          (processQuery_success sql_match c1 mn sp is dl q _
            (tryBody_noSelect sql_match c1 mn sp is dl q resp e1 h1 hsel)),
        emittedFor_of_processQuery sql_match c2 mn sp is dl q _
          (processQuery_success sql_match c2 mn sp is dl q _
            (tryBody_noSelect sql_match c2 mn sp is dl q resp e2 h2 hsel))]
      refine ⟨rfl, "0", "0",
        toString resp.usage.prompt_tokens ++ ("," ++ (toString resp.usage.completion_tokens ++
          ("," ++ (q.hardness ++ "\n")))), ?_, ?_⟩ <;>
        · try simp only [string_append_assoc]
          try rfl
    · rcases hm : (sql_match resp.content).1 with _ | _
      · rw [emittedFor_of_processQuery sql_match c1 mn sp is dl q _
            (processQuery_success sql_match c1 mn sp is dl q _
              (tryBody_unmatched sql_match c1 mn sp is dl q resp e1 h1 hsel hm)),
          emittedFor_of_processQuery sql_match c2 mn sp is dl q _
            (processQuery_success sql_match c2 mn sp is dl q _
              (tryBody_unmatched sql_match c2 mn sp is dl q resp e2 h2 hsel hm))]
        refine ⟨rfl, "0", "0",
          toString resp.usage.prompt_tokens ++ ("," ++ (toString resp.usage.completion_tokens ++
            ("," ++ (q.hardness ++ "\n")))), ?_, ?_⟩ <;>
          · try simp only [string_append_assoc]
            try rfl
      · rw [emittedFor_of_processQuery sql_match c1 mn sp is dl q _
            (processQuery_success sql_match c1 mn sp is dl q _
              (tryBody_matched sql_match c1 mn sp is dl q resp e1 h1 hsel hm)),
          emittedFor_of_processQuery sql_match c2 mn sp is dl q _
            (processQuery_success sql_match c2 mn sp is dl q _
              (tryBody_matched sql_match c2 mn sp is dl q resp e2 h2 hsel hm))]
        refine ⟨rfl, timedeltaStr e1, timedeltaStr e2,
          toString resp.usage.prompt_tokens ++ ("," ++ (toString resp.usage.completion_tokens ++
            ("," ++ (q.hardness ++ "\n")))), ?_, ?_⟩ <;>
          · try simp only [string_append_assoc]
            try rfl

theorem forall₂_map_of_mem {α β : Type} (R : β → β → Prop) (f g : α → β)
    (l : List α) (h : ∀ x ∈ l, R (f x) (g x)) :
    List.Forall₂ R (l.map f) (l.map g) := by
  induction l with
  | nil => exact List.Forall₂.nil
  | cons a t ih =>
    exact List.Forall₂.cons (h a (List.mem_cons_self a t))
      (ih fun x hx => h x (List.mem_cons_of_mem a hx))

/-- C8: two runs of the query loop over the same query list, from fresh files,
with clients that give the same deterministic responses but arbitrary
round-trip times, produce identical output-file contents and metrics-file
contents that agree line by line except for the leading time field, which is
excluded from the comparison. -/
theorem C8_determinism (sql_match : String → Bool × String) (c1 c2 : Client)
    (mn sp : String) (is dl : Nat) (queries : List Query)
    (h : AgreeModuloTiming c1 c2) :
    ∃ st1 st2 : RunState,
      run_queries_on_anyscale sql_match c1 mn sp is dl queries ⟨[], [], [], []⟩ = .ok st1 ∧
      run_queries_on_anyscale sql_match c2 mn sp is dl queries ⟨[], [], [], []⟩ = .ok st2 ∧
      st1.outputFile = st2.outputFile ∧
      List.Forall₂ EqModuloTime st1.metricsFile st2.metricsFile := by
  refine ⟨_, _, run_queries_eq sql_match c1 mn sp is dl queries ⟨[], [], [], []⟩,
    run_queries_eq sql_match c2 mn sp is dl queries ⟨[], [], [], []⟩, ?_, ?_⟩
  · simp only [runResult, List.nil_append]
    exact List.map_congr_left fun q hq => (emittedFor_agree sql_match c1 c2 mn sp is dl q h).1
  · simp only [runResult, List.nil_append]
    exact forall₂_map_of_mem EqModuloTime _ _ queries
      fun q hq => (emittedFor_agree sql_match c1 c2 mn sp is dl q h).2

/-- C8 witness: a stubbed client answered twice with different timings (0 and
1.5 seconds). -/
theorem C8_determinism_witness :
    ∃ st1 st2 : RunState,
      run_queries_on_anyscale (fun _ => (true, "select 1"))
          (fun _ => .ok ⟨"x select y", ⟨1, 2⟩, "r"⟩ 0) "m" "tpl" 1 2
          [⟨"c", "q", "easy"⟩] ⟨[], [], [], []⟩ = .ok st1 ∧
      run_queries_on_anyscale (fun _ => (true, "select 1"))
          (fun _ => .ok ⟨"x select y", ⟨1, 2⟩, "r"⟩ 1500000) "m" "tpl" 1 2
          [⟨"c", "q", "easy"⟩] ⟨[], [], [], []⟩ = .ok st2 ∧
      st1.outputFile = st2.outputFile ∧
      List.Forall₂ EqModuloTime st1.metricsFile st2.metricsFile :=
  C8_determinism (fun _ => (true, "select 1"))
    (fun _ => .ok ⟨"x select y", ⟨1, 2⟩, "r"⟩ 0)
    (fun _ => .ok ⟨"x select y", ⟨1, 2⟩, "r"⟩ 1500000) "m" "tpl" 1 2
    [⟨"c", "q", "easy"⟩]
    (fun _ => Or.inr ⟨⟨"x select y", ⟨1, 2⟩, "r"⟩, 0, 1500000, rfl, rfl⟩)

/-- C9: the success branch never reads an unbound extraction result, and the
exception handler never fails on an undefined name.  Every raise out of the
`try` body is the client call's own exception — never the `NameError` of
reading `sql_response` unbound — and at that point `data_to_log` and
`hardness` are both bound, so `processQuery` always returns; moreover a
success record with `is_sql = 1` can only arise on an iteration where
`sql_match` was actually invoked on the response content, returned `true`, and
bound the logged `sql_response` to its extraction. -/
theorem C9_no_unbound_locals (sql_match : String → Bool × String) (client : Client)
    (mn sp : String) (is dl : Nat) (q : Query) :
    (∀ msg d hd, tryBody sql_match client mn sp is dl q = .raised msg d hd →
      client (reqFor sp q) = .exn msg ∧
      d = some (baseLog mn is dl (reqFor sp q)) ∧ hd = some q.hardness) ∧
    (∀ e, tryBody sql_match client mn sp is dl q = .success e →
      e.logRecord.data.is_sql = 1 →
      ∃ resp elapsed, client (reqFor sp q) = .ok resp elapsed ∧
        strContainsPy (strToLowerPy resp.content) "select" = true ∧
        (sql_match resp.content).1 = true ∧
        e.logRecord.data.sql_response = some (sql_match resp.content).2) ∧
    (∃ e, processQuery sql_match client mn sp is dl q = .ok e) := by
  refine ⟨?_, ?_, processQuery_isOk sql_match client mn sp is dl q⟩
  · intro msg d hd hr
    rcases hc : client (reqFor sp q) with ⟨resp, e⟩ | m
    · rcases hsel : strContainsPy (strToLowerPy resp.content) "select" with _ | _
      · rw [tryBody_noSelect sql_match client mn sp is dl q resp e hc hsel] at hr
        exact absurd hr (by simp)
      · rcases hm : (sql_match resp.content).1 with _ | _
        · rw [tryBody_unmatched sql_match client mn sp is dl q resp e hc hsel hm] at hr
          exact absurd hr (by simp)
        · rw [tryBody_matched sql_match client mn sp is dl q resp e hc hsel hm] at hr
          exact absurd hr (by simp)
    · rw [tryBody_exn sql_match client mn sp is dl q m hc] at hr
      rw [TryOutcome.raised.injEq] at hr
      refine ⟨?_, hr.2.1.symm, hr.2.2.symm⟩
      rw [← hr.1]
  · intro e hs h1
    rcases hc : client (reqFor sp q) with ⟨resp, elapsed⟩ | m
    · rcases hsel : strContainsPy (strToLowerPy resp.content) "select" with _ | _
      · rw [tryBody_noSelect sql_match client mn sp is dl q resp elapsed hc hsel] at hs
        rw [TryOutcome.success.injEq] at hs
        rw [← hs] at h1
        exact absurd h1 (by simp [baseLog])
      · rcases hm : (sql_match resp.content).1 with _ | _
        · rw [tryBody_unmatched sql_match client mn sp is dl q resp elapsed hc hsel hm] at hs
          rw [TryOutcome.success.injEq] at hs
          rw [← hs] at h1
          exact absurd h1 (by simp [baseLog])
        · rw [tryBody_matched sql_match client mn sp is dl q resp elapsed hc hsel hm] at hs
          rw [TryOutcome.success.injEq] at hs
          refine ⟨resp, elapsed, rfl, hsel, hm, ?_⟩
          rw [← hs]
    · rw [tryBody_exn sql_match client mn sp is dl q m hc] at hs
      exact absurd hs (by simp)

/-- C9 witness: on a concrete failing client, the raise is the client's own
exception with both handler-read locals bound, and the iteration returns. -/
theorem C9_no_unbound_locals_witness :
    ((fun _ : List Message => CallResult.exn "boom") (reqFor "tpl" ⟨"c", "q", "easy"⟩) =
        .exn "boom" ∧
      some (baseLog "m" 1 2 (reqFor "tpl" ⟨"c", "q", "easy"⟩)) =
        some (baseLog "m" 1 2 (reqFor "tpl" ⟨"c", "q", "easy"⟩)) ∧
      some (Query.mk "c" "q" "easy").hardness = some "easy") ∧
    ∃ e, processQuery (fun s => (true, s)) (fun _ => .exn "boom") "m" "tpl" 1 2
      ⟨"c", "q", "easy"⟩ = .ok e :=
  ⟨(C9_no_unbound_locals (fun s => (true, s)) (fun _ => .exn "boom") "m" "tpl" 1 2
      ⟨"c", "q", "easy"⟩).1 "boom" _ _
      (tryBody_exn (fun s => (true, s)) (fun _ => .exn "boom") "m" "tpl" 1 2
        ⟨"c", "q", "easy"⟩ "boom" rfl),
   (C9_no_unbound_locals (fun s => (true, s)) (fun _ => .exn "boom") "m" "tpl" 1 2
      ⟨"c", "q", "easy"⟩).2.2⟩

/-! ### Unreachability of the inference-length default -/

theorem splitPy_ne_nil (sep : Char) : ∀ l : List Char, splitPy sep l ≠ []
  | [] => by simp [splitPy]
  | c :: cs => by
    by_cases h : c = sep
    · simp [splitPy, h]
    · simp only [splitPy, if_neg h]
      rcases hs : splitPy sep cs with _ | ⟨hd, tl⟩ <;> simp

theorem str_split_ne_nil (s : String) (sep : Char) : str_split s sep ≠ [] := by
  simp only [str_split, ne_eq, List.map_eq_nil_iff]
  exact splitPy_ne_nil sep s.data

theorem mapM_cons_ok_ne_nil (f : String → Except String Int) (p : String)
    (ps : List String) (l : List Int) (h : (p :: ps).mapM f = .ok l) : l ≠ [] := by
  rw [List.mapM_cons] at h
  rcases hp : f p with e | x <;> rw [hp] at h
  · exact absurd h (by simp [Bind.bind, Except.bind])
  · rcases hps : ps.mapM f with e | xs <;> rw [hps] at h
    · exact absurd h (by simp [Bind.bind, Except.bind])
    · simp only [Bind.bind, Except.bind, pure, Except.pure, Except.ok.injEq] at h
      rw [← h]
      simp

/-- C10: the fallback to the default inference-length list in `main` is
unreachable: for every string value of the `inf_length` argument the
comma-split is non-empty, so either parsing one element raises (terminating
startup) or `dataset_length_list` is exactly the non-empty parsed list — the
result never depends on the default. -/
theorem C10_default_unreachable (s : String) (d1 d2 : List Int) :
    dataset_length_list_of s d1 = dataset_length_list_of s d2 ∧
    ((∃ err, dataset_length_list_of s d1 = .error err) ∨
     (∃ l, l ≠ [] ∧ (str_split s ',').mapM int_of_string = .ok l ∧
        dataset_length_list_of s d1 = .ok l)) := by
  rcases hm : (str_split s ',').mapM int_of_string with e | l
  all_goals simp only [List.mapM] at hm
  · constructor
    · simp [dataset_length_list_of, hm]
    · exact Or.inl ⟨e, by simp [dataset_length_list_of, hm]⟩
  · have hne : l ≠ [] := by
      rcases hsp : str_split s ',' with _ | ⟨p, ps⟩
      · exact absurd hsp (str_split_ne_nil s ',')
      · rw [hsp] at hm
        exact mapM_cons_ok_ne_nil int_of_string p ps l hm
    constructor
    · simp [dataset_length_list_of, hm, hne]
    · exact Or.inr ⟨l, hne, rfl, by simp [dataset_length_list_of, hm, hne]⟩

/-- C10 witness: at `inf_length = "10,20"` the parsed list `[10, 20]` is used,
whatever the default. -/
theorem C10_default_unreachable_witness :
    dataset_length_list_of "10,20" [5] = dataset_length_list_of "10,20" [7] ∧
    ((∃ err, dataset_length_list_of "10,20" [5] = .error err) ∨
     (∃ l, l ≠ [] ∧ (str_split "10,20" ',').mapM int_of_string = .ok l ∧
        dataset_length_list_of "10,20" [5] = .ok l)) :=
  C10_default_unreachable "10,20" [5] [7]

end Anyscale
